import Mathlib

/-!
Shallow embedding of the recommendation engine of this repository
(`src/my_app/pages/Model Training.py`).

The engine consists of the functions `get_song_data`, `get_mean_vector` and
`recommend_songs`, the module-level `StandardScaler` fitted on the catalog's
fifteen numeric columns, and the Spotify fallback lookup.  Numeric values are
embedded as rationals; machine floats are idealized as exact arithmetic.

Modelling conventions, each justified against the source:

* A catalog row (`pandas` row of `data`) is a `Song`: its `name`, its
  `artists` string and the list of its `number_cols` values.  The `year`
  column is simultaneously a lookup key and a model feature in the source
  (one DataFrame column), so `Song.year` is defined as entry 1 of the
  feature list, the position of `'year'` in `number_cols`.
* The Spotify client `sp` is a parameter: a pair of functions for
  `sp.search` and `sp.audio_features`.  Each returns `SpResult.ok` for a
  normal response (with `none` for "no match" / null features) and
  `SpResult.err` for a raised exception (timeout, rate limit, 5xx, auth);
  the source has no try/except, so an exception propagates, which the
  embedding renders as `Except.error ()`.
* The module-level fitted scaler is a parameter `Scaler` (means and scales
  per column).  `IsFitted sc data` states that it is the result of
  `StandardScaler().fit` on the catalog:  per-column mean, and scale equal
  to the square root of the biased per-column variance, with zero scales
  replaced by 1 exactly as sklearn's `_handle_zeros_in_scale` does.  The
  square root is expressed by the equation `scale ^ 2 = var` (scale
  positive), which keeps everything inside `ℚ`.
* `np.argsort` on the cosine-distance row is embedded as a sort of the
  enumerated distance list.  Cosine distance `1 - u·v / (‖u‖‖v‖)` is
  compared exactly: the similarity `p / √q` with `p = u·v` and
  `q = (u·u)(v·v)` is compared through the sign of `p` and the rational
  inequality between `p² q'` and `p'² q`, and a zero denominator (the NaN
  a zero vector produces in scipy, which numpy sorts last) is ordered after
  every number.  The embedding sorts with a stable insertion sort; numpy's
  default `quicksort` agrees with it on every input whose distances are
  pairwise distinct (and on rows of at most 16 elements, where numpy also
  runs an insertion sort), but numpy does not guarantee stability on ties,
  so no theorem below relies on the tie order of this sort.
-/

/-- The fifteen numeric feature columns, `number_cols` in the source. -/
def number_cols : List String :=
  ["valence", "year", "acousticness", "danceability", "duration_ms",
   "energy", "explicit", "instrumentalness", "key", "liveness",
   "loudness", "mode", "popularity", "speechiness", "tempo"]

/-- A catalog row: the fields of `data` that the engine reads.  `feats` lists
the row's `number_cols` values in order. -/
structure Song where
  name : String
  artists : String
  feats : List ℚ
deriving DecidableEq

/-- The `year` column doubles as metadata and model feature; it is entry 1 of
`number_cols`, hence entry 1 of `feats`. -/
def Song.year (r : Song) : ℚ := r.feats.getD 1 0

/-- The `popularity` column, entry 12 of `number_cols`. -/
def Song.popularity (r : Song) : ℚ := r.feats.getD 12 0

/-- A seed song request: the `{'name': ..., 'year': ...}` dict the UI builds. -/
structure Seed where
  name : String
  year : Int
deriving DecidableEq

/-- The fields of a Spotify search result that `get_song_data` reads from
`results["tracks"]["items"][0]`. -/
structure SpTrack where
  id : String
  name : String
  releaseDate : String
  artistNames : List String
  explicit : Bool
  duration_ms : ℚ
  popularity : ℚ
deriving DecidableEq

/-- The audio-feature vector `sp.audio_features(track_id)[0]` returns.  Only
the keys that land in `number_cols` are modelled; note it carries its own
`duration_ms`, which overwrites the track's one in `song_data.update`. -/
structure AudioFeatures where
  valence : ℚ
  acousticness : ℚ
  danceability : ℚ
  duration_ms : ℚ
  energy : ℚ
  instrumentalness : ℚ
  key : ℚ
  liveness : ℚ
  loudness : ℚ
  mode : ℚ
  speechiness : ℚ
  tempo : ℚ
deriving DecidableEq

/-- Outcome of one external-service call: a normal response, or a raised
exception (timeout, rate limit, 5xx, auth failure). -/
inductive SpResult (α : Type) where
  | ok : α → SpResult α
  | err : SpResult α
deriving DecidableEq

/-- The Spotify client: `sp.search` keyed by the seed (the query string
`track:{name} year:{year}` is a function of the seed alone, with `limit=1`,
so at most one item), and `sp.audio_features` keyed by the track id. -/
structure Spotify where
  search : Seed → SpResult (Option SpTrack)
  audio_features : String → SpResult (Option AudioFeatures)

/-- Decimal-digit parse of a nonempty character list, the core of Python's
`int`. -/
def natOfDigits (cs : List Char) : Option Nat :=
  if cs = [] then none
  else cs.foldl (fun acc ch =>
    acc.bind (fun a =>
      if '0' ≤ ch ∧ ch ≤ '9' then some (a * 10 + (ch.toNat - 48)) else none)) (some 0)

/-- Python's `int` on a string: optional sign, then decimal digits; `none`
models the `ValueError` it raises otherwise. -/
def intOfString? (s : String) : Option Int :=
  match s.toList with
  | '-' :: cs => (natOfDigits cs).map (fun n => -(n : Int))
  | '+' :: cs => (natOfDigits cs).map (fun n => (n : Int))
  | cs => (natOfDigits cs).map (fun n => (n : Int))

/-- Embeds `int(track["album"]["release_date"].split("-")[0])`: the text
before the first dash (the whole string when there is no dash, exactly as
`split` behaves), fed to `int`. -/
def parseReleaseYear (rd : String) : Option Int :=
  intOfString? (String.mk (rd.toList.takeWhile (fun ch => ch ≠ '-')))

/-- The `pandas` Series built on the Spotify path of `get_song_data`:
metadata from the track object, year parsed from the release date, then
`song_data.update(audio_features)`, so `duration_ms` comes from the
audio-feature vector.  Projected to the fields the engine reads. -/
def externalSong (t : SpTrack) (af : AudioFeatures) (y : Int) : Song :=
  { name := t.name
    artists := String.intercalate ", " t.artistNames
    feats := [af.valence, (y : ℚ), af.acousticness, af.danceability,
              af.duration_ms, af.energy, (if t.explicit then 1 else 0),
              af.instrumentalness, af.key, af.liveness, af.loudness,
              af.mode, t.popularity, af.speechiness, af.tempo] }

/-- The catalog filter of `get_song_data`:
`data[(data['name'] == song['name']) & (data['year'] == song['year'])]`. -/
def seedMatches (song : Seed) (r : Song) : Bool :=
  decide (r.name = song.name ∧ r.year = (song.year : ℚ))

/-- Embeds `get_song_data(song, data)`.  Catalog first (`.iloc[0]` of the
filtered frame, i.e. the first match); on miss, `sp.search` with `limit=1`,
then `sp.audio_features`; `None` when the service reports no match or null
features; a raised exception propagates as `Except.error ()`. -/
def get_song_data (sp : Spotify) (song : Seed) (data : List Song) :
    Except Unit (Option Song) :=
  match data.find? (seedMatches song) with
  | some row => Except.ok (some row)
  | none =>
    match sp.search song with
    | SpResult.err => Except.error ()
    | SpResult.ok none => Except.ok none
    | SpResult.ok (some track) =>
      match sp.audio_features track.id with
      | SpResult.err => Except.error ()
      | SpResult.ok none => Except.ok none
      | SpResult.ok (some af) =>
        match parseReleaseYear track.releaseDate with
        | none => Except.error ()
        | some y => Except.ok (some (externalSong track af y))

/-- The loop of `get_mean_vector`: resolve each seed in order, skip the
unresolved ones, collect `song_data[number_cols].values`; an exception from
any resolution propagates. -/
def collectVectors (sp : Spotify) (song_list : List Seed) (data : List Song) :
    Except Unit (List (List ℚ)) :=
  match song_list with
  | [] => Except.ok []
  | s :: rest =>
    match get_song_data sp s data with
    | Except.error e => Except.error e
    | Except.ok none => collectVectors sp rest data
    | Except.ok (some row) =>
      match collectVectors sp rest data with
      | Except.error e => Except.error e
      | Except.ok vs => Except.ok (row.feats :: vs)

/-- Embeds `np.mean(vectors, axis=0)`: the element-wise mean. -/
def meanVec (vs : List (List ℚ)) : List ℚ :=
  match vs with
  | [] => []
  | v :: rest =>
    (rest.foldl (fun acc w => acc.zipWith (· + ·) w) v).map
      (fun x => x / (vs.length : ℚ))

/-- Embeds `get_mean_vector(song_list, data)`: `None` when no seed resolved,
otherwise the mean of the resolved feature vectors. -/
def get_mean_vector (sp : Spotify) (song_list : List Seed) (data : List Song) :
    Except Unit (Option (List ℚ)) :=
  match collectVectors sp song_list data with
  | Except.error e => Except.error e
  | Except.ok [] => Except.ok none
  | Except.ok vs => Except.ok (some (meanVec vs))

/-- The module-level fitted `StandardScaler`: per-column mean and scale. -/
structure Scaler where
  means : List ℚ
  scales : List ℚ
deriving DecidableEq

/-- Embeds `scaler.transform` on one vector: `(x - mean) / scale`
per column. -/
def transformVec : List ℚ → List ℚ → List ℚ → List ℚ
  | x :: xs, m :: ms, s :: ss => (x - m) / s :: transformVec xs ms ss
  | _, _, _ => []

/-- Transform of one row vector by the fitted scaler. -/
def Scaler.transform (sc : Scaler) (v : List ℚ) : List ℚ :=
  transformVec v sc.means sc.scales

/-- Per-column mean over a catalog column, as `StandardScaler.fit`
computes it. -/
def meanCol (xs : List ℚ) : ℚ := xs.sum / (xs.length : ℚ)

/-- Per-column biased variance (`ddof=0`), as `StandardScaler.fit`
computes it. -/
def varCol (xs : List ℚ) : ℚ :=
  ((xs.map (fun x => (x - meanCol xs) ^ 2)).sum) / (xs.length : ℚ)

/-- Column `j` of `data[number_cols]`. -/
def col (data : List Song) (j : Nat) : List ℚ :=
  data.map (fun r => r.feats.getD j 0)

/-- The scaler is the result of `scaler.fit(data[number_cols])`: per-column
mean, and positive scale whose square is the biased variance, where a zero
variance yields scale 1 (sklearn's `_handle_zeros_in_scale` replaces zero
scales by 1). -/
def IsFitted (sc : Scaler) (data : List Song) : Prop :=
  sc.scales.length = sc.means.length ∧
  ∀ j < sc.means.length,
    sc.means.getD j 0 = meanCol (col data j) ∧
    0 < sc.scales.getD j 0 ∧
    (sc.scales.getD j 0) ^ 2 =
      (if varCol (col data j) = 0 then 1 else varCol (col data j))

/-- Dot product of two feature vectors. -/
def dotL (u v : List ℚ) : ℚ := (List.zipWith (· * ·) u v).sum

/-- The cosine distance `1 - u·v / (‖u‖‖v‖)` of `cdist(..., 'cosine')`,
represented exactly: the pair `(p, q)` with `p = u·v` and `q = (u·u)(v·v)`,
standing for the distance `1 - p / √q`. -/
def cosPair (u v : List ℚ) : ℚ × ℚ := (dotL u v, dotL u u * dotL v v)

/-- Exact comparison `p₁ / √q₁ ≤ p₂ / √q₂` of two represented similarities,
for positive `q₁ q₂`: by sign of the numerators, then by the squared cross
inequality. -/
def simLeB (p₁ q₁ p₂ q₂ : ℚ) : Bool :=
  if p₁ ≤ 0 then decide (0 ≤ p₂) || decide (p₂ ^ 2 * q₁ ≤ p₁ ^ 2 * q₂)
  else decide (0 < p₂) && decide (p₁ ^ 2 * q₂ ≤ p₂ ^ 2 * q₁)

/-- Comparison of two represented cosine distances, ascending.  A zero
denominator is the NaN scipy produces for a zero vector; numpy's sort orders
NaN after every number, and NaN ties with NaN.  Distances ascend exactly as
similarities descend, hence the swapped `simLeB` arguments. -/
def distLE (a b : ℚ × ℚ) : Bool :=
  if a.2 ≤ 0 then decide (b.2 ≤ 0)
  else if b.2 ≤ 0 then true
  else simLeB b.1 b.2 a.1 a.2

/-- The comparison relation `np.argsort` sorts the enumerated distance row
by. -/
def distRel (a b : Nat × (ℚ × ℚ)) : Prop := distLE a.2 b.2 = true

instance : DecidableRel distRel := fun a b => by
  unfold distRel; infer_instance

/-- Embeds `np.argsort(distances)[0]` on the single distance row: the list of
catalog indices in ascending distance order. -/
def argsortDist (ds : List (ℚ × ℚ)) : List Nat :=
  (List.insertionSort distRel ds.enum).map (fun p => p.1)

/-- The cosine-distance row `cdist(scaled_song_center, scaled_data, 'cosine')`
in represented form. -/
def distancesOf (sc : Scaler) (center : List ℚ) (data : List Song) :
    List (ℚ × ℚ) :=
  (data.map (fun r => sc.transform r.feats)).map
    (fun v => cosPair (sc.transform center) v)

/-- Embeds `recommend_songs(song_list, data, n_songs)`: taste profile, scale,
cosine distances, `argsort`, take the first `n_songs` indices, look the rows
up, then drop the rows whose `name` is among the seed names.  The final
column projection `rec_songs[required_cols + ['artists']]` of the source is
presentational (it selects fields of the same rows in the same order) and is
left out: the embedding returns the selected rows themselves. -/
def recommend_songs (sp : Spotify) (sc : Scaler) (song_list : List Seed)
    (data : List Song) (n_songs : Nat) : Except Unit (Option (List Song)) :=
  match get_mean_vector sp song_list data with
  | Except.error e => Except.error e
  | Except.ok none => Except.ok none
  | Except.ok (some song_center) =>
    let index := (argsortDist (distancesOf sc song_center data)).take n_songs
    let rec_songs := index.filterMap (fun i => data.get? i)
    Except.ok (some (rec_songs.filter
      (fun r => !(song_list.map Seed.name).contains r.name)))

/-- Per-value column mean of `StandardScaler.fit` in the presence of missing
values: sklearn disregards each NaN individually (documented: "NaNs are
treated as missing values: disregarded in fit"), so the statistics of a
column are those of its present entries. -/
def presentVals (xs : List (Option ℚ)) : List ℚ := xs.filterMap id

/-- Column mean `StandardScaler.fit` computes over a column with missing
entries. -/
def fitMean (xs : List (Option ℚ)) : ℚ := meanCol (presentVals xs)

/-- Column biased variance `StandardScaler.fit` computes over a column with
missing entries. -/
def fitVar (xs : List (Option ℚ)) : ℚ := varCol (presentVals xs)

/-- Column `j` of a feature matrix with missing entries. -/
def colOpt (rows : List (List (Option ℚ))) (j : Nat) : List (Option ℚ) :=
  rows.map (fun row => row.getD j none)

/-- Modelled from the spec (for comparison with the source's behavior, not
from the code): the mean of column `j` computed after dropping every row that
has a missing value in any designated column, the computation §4.2 of the
spec prescribes. -/
def specRowDropMean (rows : List (List (Option ℚ))) (j : Nat) : ℚ :=
  meanCol ((rows.filter (fun row => row.all (fun x => x.isSome))).map
    (fun row => (row.getD j none).getD 0))

/-- Modelled from the spec (for comparison with the source's behavior, not
from the code): the row-dropping biased variance of column `j`. -/
def specRowDropVar (rows : List (List (Option ℚ))) (j : Nat) : ℚ :=
  varCol ((rows.filter (fun row => row.all (fun x => x.isSome))).map
    (fun row => (row.getD j none).getD 0))

/-- Column-`k` scaling of one feature vector by `c`. -/
def scaleVec : Nat → ℚ → List ℚ → List ℚ
  | _, _, [] => []
  | 0, c, x :: xs => (c * x) :: xs
  | k + 1, c, x :: xs => x :: scaleVec k c xs

/-- Column-`k` scaling of one catalog row. -/
def scaleSong (k : Nat) (c : ℚ) (r : Song) : Song :=
  { r with feats := scaleVec k c r.feats }

/-- Multiplying every value of feature column `k` of the catalog by `c`. -/
def scaleColumn (k : Nat) (c : ℚ) (data : List Song) : List Song :=
  data.map (scaleSong k c)

/-! ## Concrete fixtures used by witnesses and counterexamples -/

/-- External resolver whose every call raises (network down). -/
def spErr : Spotify := ⟨fun _ => SpResult.err, fun _ => SpResult.err⟩

/-- External resolver whose every search reports no match. -/
def spNone : Spotify := ⟨fun _ => SpResult.ok none, fun _ => SpResult.ok none⟩

/-- Two-feature catalog row fixtures (the embedding is width-generic; the
width-15 contract is carried by `number_cols`). -/
def songA : Song := ⟨"A", "artA", [2, 0]⟩

/-- Catalog row fixture. -/
def songB : Song := ⟨"B", "artB", [0, 2]⟩

/-- Catalog row fixture; its `year` entry is 2. -/
def songC : Song := ⟨"C", "artC", [2, 2]⟩

/-- Catalog row fixture. -/
def songD : Song := ⟨"D", "artD", [0, 0]⟩

/-- A four-row catalog whose two columns both have mean 1 and variance 1. -/
def data4 : List Song := [songA, songB, songC, songD]

/-- The scaler `StandardScaler().fit` produces on `data4`. -/
def sc4 : Scaler := ⟨[1, 1], [1, 1]⟩

/-- The scaler `StandardScaler().fit` produces on `data4` with its year
column (index 1) doubled. -/
def sc4b : Scaler := ⟨[1, 2], [1, 2]⟩

/-- The scaler `StandardScaler().fit` produces on `data4` with its column 0
doubled. -/
def sc4k0 : Scaler := ⟨[2, 1], [2, 1]⟩

/-- Catalog fixture with a constant first feature column. -/
def songE : Song := ⟨"E", "aE", [1, 5]⟩

/-- Catalog fixture with a constant first feature column. -/
def songF : Song := ⟨"F", "aF", [1, 7]⟩

/-- Two-row catalog whose feature column 0 has zero variance. -/
def dataEF : List Song := [songE, songF]

/-- The scaler `StandardScaler().fit` produces on `dataEF`: the zero-variance
column gets scale 1. -/
def scEF : Scaler := ⟨[1, 6], [1, 1]⟩

/-- Feature-matrix fixture with one missing entry: row 0 is missing its
column-0 value but has a column-1 value. -/
def M9 : List (List (Option ℚ)) := [[none, some 0], [some 1, some 2]]

/-- Search-result fixture: the track the external service returns; its name
differs from the seed name used in the C10 witness. -/
def trackQ : SpTrack :=
  ⟨"id1", "Bohemian Rhapsody", "1975-10-31", ["Queen"], false, 354320, 90⟩

/-- Audio-feature fixture for `trackQ`. -/
def afQ : AudioFeatures := ⟨1, 0, 1, 354320, 1, 0, 5, 0, -6, 1, 0, 72⟩

/-- External resolver fixture returning `trackQ` for any search and `afQ`
for its id. -/
def spQueen : Spotify :=
  ⟨fun _ => SpResult.ok (some trackQ),
   fun i => if i = "id1" then SpResult.ok (some afQ) else SpResult.ok none⟩

/-- External resolver fixture: searching for a seed named "A" raises (a
transient failure); any other search reports no match. -/
def spFailA : Spotify :=
  ⟨fun s => if s.name = "A" then SpResult.err else SpResult.ok none,
   fun _ => SpResult.ok none⟩

/-- Decidable equality for `Except`, so that concrete engine results can be
compared by `decide`. -/
instance {ε α : Type} [DecidableEq ε] [DecidableEq α] : DecidableEq (Except ε α) :=
  fun a b =>
    match a, b with
    | Except.ok x, Except.ok y =>
      if h : x = y then isTrue (by rw [h]) else isFalse (by intro hc; cases hc; exact h rfl)
    | Except.ok _, Except.error _ => isFalse (by intro hc; cases hc)
    | Except.error _, Except.ok _ => isFalse (by intro hc; cases hc)
    | Except.error x, Except.error y =>
      if h : x = y then isTrue (by rw [h]) else isFalse (by intro hc; cases hc; exact h rfl)

/-- Decidability of the fitted-scaler predicate, for concrete witnesses. -/
instance (sc : Scaler) (data : List Song) : Decidable (IsFitted sc data) := by
  unfold IsFitted; infer_instance

/-! ## C4: catalog hit returns the first match, no external call -/

/-- C4: for every seed whose (name, year) pair exactly matches at least one
catalog row, `get_song_data` returns the first matching catalog row without
invoking the external service — rendered as: the result is the first match
and is the same for every external resolver, in particular for a second
invocation, which therefore yields the same record with no external call. -/
theorem C4_catalog_hit_first_match_no_external
    (sp sp2 : Spotify) (song : Seed) (data pre post : List Song) (row : Song)
    (hdata : data = pre ++ row :: post)
    (hpre : ∀ r ∈ pre, seedMatches song r = false)
    (hrow : seedMatches song row = true) :
    get_song_data sp song data = Except.ok (some row) ∧
    get_song_data sp2 song data = get_song_data sp song data := by
  have h : data.find? (seedMatches song) = some row := by
    subst hdata
    rw [List.find?_append]
    have h1 : pre.find? (seedMatches song) = none :=
      List.find?_eq_none.mpr (fun x hx => by simp [hpre x hx])
    rw [h1, List.find?_cons_of_pos _ hrow]
    rfl
  constructor
  · simp [get_song_data, h]
  · simp [get_song_data, h]

/-- Witness for C4 at a concrete input: seed ("C", 2) is present in `data4`;
a resolver that raises on every call and one that finds nothing agree on the
result, which is the catalog row. -/
theorem C4_witness :
    get_song_data spErr ⟨"C", 2⟩ data4 = Except.ok (some songC) ∧
    get_song_data spNone ⟨"C", 2⟩ data4 = get_song_data spErr ⟨"C", 2⟩ data4 :=
  C4_catalog_hit_first_match_no_external spErr spNone ⟨"C", 2⟩ data4
    [songA, songB] [songD] songC rfl (by decide) (by decide)

/-! ## C10: the external record is built verbatim from the best match -/

/-- C10: when a seed is absent from the catalog, `get_song_data` builds the
returned record verbatim from the external service's single best search
match — name from the matched track, year parsed from the first segment of
its album release date — with no hypothesis anywhere relating the match's
name or year to the requested seed. -/
theorem C10_external_record_verbatim
    (sp : Spotify) (song : Seed) (data : List Song) (track : SpTrack)
    (af : AudioFeatures) (y : Int)
    (habs : ∀ r ∈ data, seedMatches song r = false)
    (hsearch : sp.search song = SpResult.ok (some track))
    (haf : sp.audio_features track.id = SpResult.ok (some af))
    (hyear : parseReleaseYear track.releaseDate = some y) :
    get_song_data sp song data = Except.ok (some (externalSong track af y)) ∧
    (externalSong track af y).name = track.name ∧
    (externalSong track af y).year = (y : ℚ) := by
  have h : data.find? (seedMatches song) = none :=
    List.find?_eq_none.mpr (fun x hx => by simp [habs x hx])
  refine ⟨?_, rfl, rfl⟩
  simp [get_song_data, h, hsearch, haf, hyear]

/-- Witness for C10 at a concrete input: the resolved record's name is the
match's name, which differs from the seed name supplied by the caller. -/
theorem C10_witness :
    trackQ.name ≠ (Seed.mk "Bohemian" 1975).name ∧
    get_song_data spQueen ⟨"Bohemian", 1975⟩ [] =
      Except.ok (some (externalSong trackQ afQ 1975)) ∧
    (externalSong trackQ afQ 1975).name = trackQ.name ∧
    (externalSong trackQ afQ 1975).year = ((1975 : Int) : ℚ) :=
  ⟨by decide,
   C10_external_record_verbatim spQueen ⟨"Bohemian", 1975⟩ [] trackQ afQ 1975
     (by decide) rfl (by decide) (by decide)⟩

/-! ## Error propagation and skipping in the seed-resolution loop -/

/-- An exception while resolving any seed propagates out of the resolution
loop of `get_mean_vector` (there is no try/except in the source). -/
theorem collectVectors_error (sp : Spotify) (songs : List Seed) (data : List Song)
    (h : ∃ s ∈ songs, get_song_data sp s data = Except.error ()) :
    collectVectors sp songs data = Except.error () := by
  induction songs with
  | nil => simp at h
  | cons s rest ih =>
    rcases h with ⟨t, ht, herr⟩
    rcases List.mem_cons.mp ht with rfl | htr
    · simp [collectVectors, herr]
    · cases hh : get_song_data sp s data with
      | error e => cases e; simp [collectVectors, hh]
      | ok o =>
        have hrest := ih ⟨t, htr, herr⟩
        cases o with
        | none => simpa [collectVectors, hh] using hrest
        | some row => simp [collectVectors, hh, hrest]

/-- A seed the resolver definitively fails to find is skipped: the loop
continues with the remaining seeds. -/
theorem collectVectors_skip (sp : Spotify) (s : Seed) (rest : List Seed)
    (data : List Song) (h : get_song_data sp s data = Except.ok none) :
    collectVectors sp (s :: rest) data = collectVectors sp rest data := by
  simp [collectVectors, h]

/-- When every seed is definitively not found, the loop collects nothing. -/
theorem collectVectors_all_none (sp : Spotify) (songs : List Seed) (data : List Song)
    (h : ∀ s ∈ songs, get_song_data sp s data = Except.ok none) :
    collectVectors sp songs data = Except.ok [] := by
  induction songs with
  | nil => rfl
  | cons s rest ih =>
    rw [collectVectors_skip sp s rest data (h s (List.mem_cons_self s rest))]
    exact ih (fun t ht => h t (List.mem_cons_of_mem s ht))

/-- When no seed resolution raises, the loop completes normally. -/
theorem collectVectors_no_error (sp : Spotify) (songs : List Seed) (data : List Song)
    (h : ∀ s ∈ songs, get_song_data sp s data ≠ Except.error ()) :
    ∃ vs, collectVectors sp songs data = Except.ok vs := by
  induction songs with
  | nil => exact ⟨[], rfl⟩
  | cons s rest ih =>
    obtain ⟨vs, hvs⟩ := ih (fun t ht => h t (List.mem_cons_of_mem s ht))
    cases hh : get_song_data sp s data with
    | error e => cases e; exact absurd hh (h s (List.mem_cons_self s rest))
    | ok o =>
      cases o with
      | none => exact ⟨vs, by simpa [collectVectors, hh] using hvs⟩
      | some row => exact ⟨row.feats :: vs, by simp [collectVectors, hh, hvs]⟩

/-- When some seed resolves to a record and the loop completes, the collected
list is nonempty. -/
theorem collectVectors_resolved_ne_nil (sp : Spotify) (songs : List Seed)
    (data : List Song) (s : Seed) (row : Song) (vs : List (List ℚ))
    (hs : s ∈ songs) (hr : get_song_data sp s data = Except.ok (some row))
    (hvs : collectVectors sp songs data = Except.ok vs) : vs ≠ [] := by
  induction songs generalizing vs with
  | nil => simp at hs
  | cons t rest ih =>
    rcases List.mem_cons.mp hs with rfl | htr
    · rw [collectVectors, hr] at hvs
      cases hrest : collectVectors sp rest data with
      | error e => rw [hrest] at hvs; cases hvs
      | ok ws => rw [hrest] at hvs; cases hvs; simp
    · cases hh : get_song_data sp t data with
      | error e => rw [collectVectors, hh] at hvs; cases hvs
      | ok o =>
        cases o with
        | none =>
          rw [collectVectors, hh] at hvs
          exact ih _ htr hvs
        | some r2 =>
          rw [collectVectors, hh] at hvs
          cases hrest : collectVectors sp rest data with
          | error e => rw [hrest] at hvs; cases hvs
          | ok ws => rw [hrest] at hvs; cases hvs; simp

/-! ## C5: a transient external failure aborts the whole request -/

/-- C5 as amended: the source has no exception handling, so a transient
external-service failure while resolving any seed propagates and aborts the
whole recommendation request, even when other seeds resolve; only a
definitive no-match response is treated as seed-not-found and skipped. -/
theorem C5_amended_failure_aborts :
    (∀ (sp : Spotify) (sc : Scaler) (songs : List Seed) (data : List Song) (n : Nat),
        (∃ s ∈ songs, get_song_data sp s data = Except.error ()) →
        recommend_songs sp sc songs data n = Except.error ()) ∧
    (∀ (sp : Spotify) (s : Seed) (rest : List Seed) (data : List Song),
        get_song_data sp s data = Except.ok none →
        get_mean_vector sp (s :: rest) data = get_mean_vector sp rest data) := by
  constructor
  · intro sp sc songs data n h
    have hc := collectVectors_error sp songs data h
    simp [recommend_songs, get_mean_vector, hc]
  · intro sp s rest data h
    simp [get_mean_vector, collectVectors_skip sp s rest data h]

/-- Counterexample for C5 as stated: seed ("A", 5) is absent from the catalog
and its external search raises a transient failure, while seed ("C", 2)
resolves from the catalog; the whole request nevertheless aborts with the
propagated exception instead of skipping the failing seed, whereas under a
resolver that reports a definitive no-match for ("A", 5) the seed is skipped
and processing continues with the remaining seed. -/
theorem C5_counterexample :
    get_song_data spFailA ⟨"C", 2⟩ data4 = Except.ok (some songC) ∧
    get_song_data spFailA ⟨"A", 5⟩ data4 = Except.error () ∧
    recommend_songs spFailA sc4 [⟨"A", 5⟩, ⟨"C", 2⟩] data4 10 = Except.error () ∧
    get_mean_vector spNone [⟨"A", 5⟩, ⟨"C", 2⟩] data4 =
      Except.ok (some (meanVec [songC.feats])) := by
  refine ⟨by decide, by decide, ?_, rfl⟩
  exact C5_amended_failure_aborts.1 spFailA sc4 [⟨"A", 5⟩, ⟨"C", 2⟩] data4 10
    ⟨⟨"A", 5⟩, by decide, by decide⟩

/-- Witness for the amended C5 at a concrete input. -/
theorem C5_witness :
    recommend_songs spFailA sc4 [⟨"A", 5⟩, ⟨"C", 2⟩] data4 3 = Except.error () ∧
    get_mean_vector spNone (⟨"A", 5⟩ :: [⟨"C", 2⟩]) data4 =
      get_mean_vector spNone [⟨"C", 2⟩] data4 :=
  ⟨C5_amended_failure_aborts.1 spFailA sc4 [⟨"A", 5⟩, ⟨"C", 2⟩] data4 3
     ⟨⟨"A", 5⟩, by decide, by decide⟩,
   C5_amended_failure_aborts.2 spNone ⟨"A", 5⟩ [⟨"C", 2⟩] data4 (by decide)⟩

/-! ## C6: empty seed list and all-unresolved seed list both yield None -/

/-- C6 as amended: an empty seed list and a seed list in which every seed is
absent from the catalog and unresolved externally both produce the same
`None` result, with no exception; the two outcomes are therefore NOT
distinguishable at `recommend_songs` (the UI distinguishes the empty form
before ever calling the engine). -/
theorem C6_amended_both_none :
    (∀ (sp : Spotify) (sc : Scaler) (data : List Song) (n : Nat),
        recommend_songs sp sc [] data n = Except.ok none) ∧
    (∀ (sp : Spotify) (sc : Scaler) (songs : List Seed) (data : List Song) (n : Nat),
        (∀ s ∈ songs, get_song_data sp s data = Except.ok none) →
        recommend_songs sp sc songs data n = Except.ok none) := by
  constructor
  · intro sp sc data n
    simp [recommend_songs, get_mean_vector, collectVectors]
  · intro sp sc songs data n h
    simp [recommend_songs, get_mean_vector, collectVectors_all_none sp songs data h]

/-- Counterexample for C6 as stated: at a concrete catalog, the empty seed
list and an all-unresolved seed list produce equal results — both are the
single sentinel `None` — so the no-input and no-matches outcomes are not
distinguishable at the engine entry point. -/
theorem C6_counterexample :
    recommend_songs spNone sc4 [] data4 7 = Except.ok none ∧
    recommend_songs spNone sc4 [⟨"Z", 1999⟩] data4 7 = Except.ok none ∧
    recommend_songs spNone sc4 [] data4 7 =
      recommend_songs spNone sc4 [⟨"Z", 1999⟩] data4 7 := by
  refine ⟨C6_amended_both_none.1 spNone sc4 data4 7, ?_, by decide⟩
  exact C6_amended_both_none.2 spNone sc4 [⟨"Z", 1999⟩] data4 7 (by decide)

/-- Witness for the amended C6 at a concrete input. -/
theorem C6_witness :
    recommend_songs spErr sc4 [] data4 2 = Except.ok none ∧
    recommend_songs spNone sc4 [⟨"Z", 9⟩] data4 2 = Except.ok none :=
  ⟨C6_amended_both_none.1 spErr sc4 data4 2,
   C6_amended_both_none.2 spNone sc4 [⟨"Z", 9⟩] data4 2 (by decide)⟩

/-! ## C1: result length is at most n and no seed name is recommended -/

/-- C1: for every non-empty seed list with at least one resolvable seed (and
no external exception, which C5 shows would abort the request), a list is
returned, it has length at most `n_songs`, and no returned row's name equals
the name of any seed in the input list. -/
theorem C1_length_le_n_and_excludes_seed_names
    (sp : Spotify) (sc : Scaler) (song_list : List Seed) (data : List Song) (n : Nat)
    (hne : song_list ≠ [])
    (hnoerr : ∀ s ∈ song_list, get_song_data sp s data ≠ Except.error ())
    (hres : ∃ s ∈ song_list, ∃ row, get_song_data sp s data = Except.ok (some row)) :
    ∃ l, recommend_songs sp sc song_list data n = Except.ok (some l) ∧
      l.length ≤ n ∧ ∀ r ∈ l, ∀ s ∈ song_list, r.name ≠ s.name := by
  obtain ⟨vs, hvs⟩ := collectVectors_no_error sp song_list data hnoerr
  obtain ⟨s, hs, row, hrow⟩ := hres
  have hvne : vs ≠ [] :=
    collectVectors_resolved_ne_nil sp song_list data s row vs hs hrow hvs
  have hmv : get_mean_vector sp song_list data = Except.ok (some (meanVec vs)) := by
    cases vs with
    | nil => exact absurd rfl hvne
    | cons v vs2 => simp [get_mean_vector, hvs]
  have hrec : recommend_songs sp sc song_list data n =
      Except.ok (some ((((argsortDist (distancesOf sc (meanVec vs) data)).take n).filterMap
        (fun i => data.get? i)).filter
          (fun r => !(song_list.map Seed.name).contains r.name))) := by
    simp only [recommend_songs, hmv]
  refine ⟨_, hrec, ?_, ?_⟩
  · exact le_trans (List.length_filter_le _ _)
      (le_trans (List.length_filterMap_le _ _) (List.length_take_le n _))
  · intro r hr t ht heq
    have hpred := (List.mem_filter.mp hr).2
    simp only [List.contains, List.elem_eq_mem, Bool.not_eq_true',
      decide_eq_false_iff_not] at hpred
    exact hpred (heq ▸ List.mem_map_of_mem Seed.name ht)

/-- Witness for C1 at a concrete input. -/
theorem C1_witness :
    ∃ l, recommend_songs spNone sc4 [⟨"A", 0⟩] data4 1 = Except.ok (some l) ∧
      l.length ≤ 1 ∧ ∀ r ∈ l, ∀ s ∈ [(⟨"A", 0⟩ : Seed)], r.name ≠ s.name :=
  C1_length_le_n_and_excludes_seed_names spNone sc4 [⟨"A", 0⟩] data4 1
    (by decide) (by decide) ⟨⟨"A", 0⟩, by decide, songA, by decide⟩

/-! ## C7: a zero-variance feature standardizes to zero, never a crash -/

/-- Entrywise description of `transformVec`. -/
theorem transformVec_getD : ∀ (v m s : List ℚ) (j : Nat), j < v.length →
    j < m.length → j < s.length →
    (transformVec v m s).getD j 0 = (v.getD j 0 - m.getD j 0) / s.getD j 0
  | _ :: _, _ :: _, _ :: _, 0, _, _, _ => rfl
  | x :: xs, y :: ys, z :: zs, j + 1, hv, hm, hs => by
    simp only [transformVec, List.getD_cons_succ]
    exact transformVec_getD xs ys zs j (by simpa using hv) (by simpa using hm)
      (by simpa using hs)
  | [], _, _, j, hv, _, _ => absurd hv (by simp)
  | _ :: _, [], _, j, _, hm, _ => absurd hm (by simp)
  | _ :: _, _ :: _, [], j, _, _, hs => absurd hs (by simp)

/-- Length of a transformed vector. -/
theorem transformVec_length : ∀ (v m s : List ℚ),
    (transformVec v m s).length = min v.length (min m.length s.length)
  | x :: xs, y :: ys, z :: zs => by
    simp only [transformVec, List.length_cons, transformVec_length xs ys zs]
    omega
  | [], _, _ => by simp [transformVec]
  | _ :: _, [], _ => by simp [transformVec]
  | _ :: _, _ :: _, [] => by simp [transformVec]

/-- A column with zero biased variance is constant at its mean. -/
theorem eq_mean_of_varCol_zero {xs : List ℚ} (h : varCol xs = 0) :
    ∀ x ∈ xs, x = meanCol xs := by
  intro x hx
  have hlen0 : xs.length ≠ 0 := fun h0 =>
    List.ne_nil_of_mem hx (List.length_eq_zero.mp h0)
  have hlen : (xs.length : ℚ) ≠ 0 := Nat.cast_ne_zero.mpr hlen0
  unfold varCol at h
  have hsum : (xs.map (fun y => (y - meanCol xs) ^ 2)).sum = 0 := by
    rcases div_eq_zero_iff.mp h with h1 | h1
    · exact h1
    · exact absurd h1 hlen
  have hnn : ∀ y ∈ xs.map (fun y => (y - meanCol xs) ^ 2), (0 : ℚ) ≤ y := by
    intro y hy
    obtain ⟨a, _, rfl⟩ := List.mem_map.mp hy
    positivity
  have hmem : (x - meanCol xs) ^ 2 ∈ xs.map (fun y => (y - meanCol xs) ^ 2) :=
    List.mem_map_of_mem _ hx
  have hle := List.single_le_sum hnn _ hmem
  have hz : (x - meanCol xs) ^ 2 = 0 := le_antisymm (hsum ▸ hle) (sq_nonneg _)
  have hxz : x - meanCol xs = 0 := (pow_eq_zero_iff (two_ne_zero)).mp hz
  linarith

/-- C7: for every fitted scaler and catalog in which feature column `j` has
zero variance, the scale stored for that column is 1 — sklearn replaces the
zero scale, so transforming divides by 1 and cannot raise — and the
standardized value of that feature is 0 on every catalog row. -/
theorem C7_zero_variance_scales_to_one_and_zero_output
    (sc : Scaler) (data : List Song) (j : Nat)
    (hfit : IsFitted sc data) (hj : j < sc.means.length)
    (hvar : varCol (col data j) = 0) :
    sc.scales.getD j 0 = 1 ∧
    ∀ r ∈ data, j < r.feats.length → (sc.transform r.feats).getD j 0 = 0 := by
  obtain ⟨hlen, hall⟩ := hfit
  obtain ⟨hmean, hpos, hsq⟩ := hall j hj
  rw [hvar, if_pos rfl] at hsq
  have hs1 : sc.scales.getD j 0 = 1 := by
    have h2 : (sc.scales.getD j 0 - 1) * (sc.scales.getD j 0 + 1) = 0 := by
      linear_combination hsq
    rcases mul_eq_zero.mp h2 with h3 | h3
    · linarith [sub_eq_zero.mp h3]
    · exfalso; nlinarith
  refine ⟨hs1, ?_⟩
  intro r hr hjr
  have hx : r.feats.getD j 0 = meanCol (col data j) :=
    eq_mean_of_varCol_zero hvar _ (List.mem_map_of_mem _ hr)
  rw [Scaler.transform, transformVec_getD _ _ _ j hjr hj (hlen ▸ hj)]
  rw [hx, ← hmean, sub_self, zero_div]

/-- Witness for C7 at a concrete input. -/
theorem C7_witness :
    scEF.scales.getD 0 0 = 1 ∧
    ∀ r ∈ dataEF, 0 < r.feats.length → (scEF.transform r.feats).getD 0 0 = 0 :=
  C7_zero_variance_scales_to_one_and_zero_output scEF dataEF 0
    (by
      constructor
      · rfl
      · intro j hj
        norm_num [scEF] at hj
        interval_cases j <;>
          norm_num [scEF, meanCol, varCol, col, dataEF, songE, songF])
    (by norm_num [scEF])
    (by norm_num [varCol, meanCol, col, dataEF, songE, songF])

/-! ## C9: fit ignores missing values per value, not per row -/

/-- Counterexample for C9 as stated: on `M9`, `StandardScaler.fit` computes
the column-1 mean over both rows (the row with a missing column-0 value still
contributes its column-1 value), giving 1, whereas the row-dropping
computation the claim describes gives 2; likewise for the variance. -/
theorem C9_counterexample :
    fitMean (colOpt M9 1) = 1 ∧ specRowDropMean M9 1 = 2 ∧
    fitMean (colOpt M9 1) ≠ specRowDropMean M9 1 ∧
    fitVar (colOpt M9 1) = 1 ∧ specRowDropVar M9 1 = 0 := by
  norm_num [fitMean, fitVar, specRowDropMean, specRowDropVar, colOpt,
    presentVals, meanCol, varCol, M9, List.filterMap_cons, id_eq]

/-- C9 as amended: `StandardScaler.fit` computes each column's mean and
(biased) standard deviation over the values present in that column, ignoring
missing values individually; a row with a missing value elsewhere still
contributes its present values — no row is dropped.  First conjunct: a
missing entry anywhere in a column leaves that column's statistics those of
the remaining entries.  Second conjunct: appending a row contributes its
column-`j` value to column `j`'s statistics pool regardless of what is
missing in its other columns. -/
theorem C9_amended_per_value_statistics :
    (∀ (xs ys : List (Option ℚ)),
        fitMean (xs ++ none :: ys) = fitMean (xs ++ ys) ∧
        fitVar (xs ++ none :: ys) = fitVar (xs ++ ys)) ∧
    (∀ (rows : List (List (Option ℚ))) (r : List (Option ℚ)) (j : Nat) (v : ℚ),
        r.getD j none = some v →
        presentVals (colOpt (rows ++ [r]) j) = presentVals (colOpt rows j) ++ [v]) := by
  constructor
  · intro xs ys
    have key : presentVals (xs ++ none :: ys) = presentVals (xs ++ ys) := by
      simp [presentVals, List.filterMap_append]
    exact ⟨by rw [fitMean, fitMean, key], by rw [fitVar, fitVar, key]⟩
  · intro rows r j v hv
    have hcol : colOpt (rows ++ [r]) j = colOpt rows j ++ [r.getD j none] := by
      simp [colOpt]
    rw [hcol, presentVals, List.filterMap_append, hv]
    rfl

/-- Witness for the amended C9 at concrete inputs. -/
theorem C9_witness :
    (fitMean ([some 1] ++ none :: [some 3]) = fitMean ([some 1] ++ [some 3]) ∧
     fitVar ([some 1] ++ none :: [some 3]) = fitVar ([some 1] ++ [some 3])) ∧
    presentVals (colOpt ([[none, some 0]] ++ [[none, some 5]]) 1) =
      presentVals (colOpt [[none, some 0]] 1) ++ [5] :=
  ⟨C9_amended_per_value_statistics.1 [some 1] [some 3],
   C9_amended_per_value_statistics.2 [[none, some 0]] [none, some 5] 1 5 rfl⟩

/-! ## Order properties of the exact cosine-distance comparison -/

/-- The represented-similarity comparison is total. -/
theorem simLeB_total (p₁ q₁ p₂ q₂ : ℚ) :
    simLeB p₁ q₁ p₂ q₂ = true ∨ simLeB p₂ q₂ p₁ q₁ = true := by
  unfold simLeB
  by_cases h1 : p₁ ≤ 0
  · by_cases h2 : p₂ ≤ 0
    · rw [if_pos h1, if_pos h2]
      simp only [Bool.or_eq_true, decide_eq_true_eq]
      rcases le_total (p₂ ^ 2 * q₁) (p₁ ^ 2 * q₂) with h | h
      · exact Or.inl (Or.inr h)
      · exact Or.inr (Or.inr h)
    · left
      rw [if_pos h1]
      simp only [Bool.or_eq_true, decide_eq_true_eq]
      exact Or.inl (le_of_lt (not_le.mp h2))
  · by_cases h2 : p₂ ≤ 0
    · right
      rw [if_pos h2]
      simp only [Bool.or_eq_true, decide_eq_true_eq]
      exact Or.inl (le_of_lt (not_le.mp h1))
    · rw [if_neg h1, if_neg h2]
      simp only [Bool.and_eq_true, decide_eq_true_eq]
      rcases le_total (p₁ ^ 2 * q₂) (p₂ ^ 2 * q₁) with h | h
      · exact Or.inl ⟨not_le.mp h2, h⟩
      · exact Or.inr ⟨not_le.mp h1, h⟩

/-- The represented-similarity comparison is transitive for positive
denominators (it then agrees with the real order of `p / √q`). -/
theorem simLeB_trans {p₁ q₁ p₂ q₂ p₃ q₃ : ℚ}
    (hq₁ : 0 < q₁) (hq₂ : 0 < q₂) (hq₃ : 0 < q₃)
    (hab : simLeB p₁ q₁ p₂ q₂ = true) (hbc : simLeB p₂ q₂ p₃ q₃ = true) :
    simLeB p₁ q₁ p₃ q₃ = true := by
  unfold simLeB at hab hbc ⊢
  by_cases h1 : p₁ ≤ 0
  · rw [if_pos h1] at hab ⊢
    simp only [Bool.or_eq_true, decide_eq_true_eq] at hab ⊢
    by_cases h3 : 0 ≤ p₃
    · exact Or.inl h3
    · right
      push_neg at h3
      have h2 : p₂ ≤ 0 := by
        by_contra h2
        rw [if_neg h2] at hbc
        simp only [Bool.and_eq_true, decide_eq_true_eq] at hbc
        exact absurd hbc.1 (not_lt.mpr (le_of_lt h3))
      rw [if_pos h2] at hbc
      simp only [Bool.or_eq_true, decide_eq_true_eq] at hbc
      have hbc2 : p₃ ^ 2 * q₂ ≤ p₂ ^ 2 * q₃ := hbc.resolve_left (not_le.mpr h3)
      by_cases hz : p₂ = 0
      · exfalso
        rw [hz] at hbc2
        nlinarith [mul_pos_of_neg_of_neg h3 h3, hq₂]
      · rcases hab with hab1 | hab2
        · exact absurd (le_antisymm h2 hab1) hz
        · have key := mul_le_mul hbc2 hab2 (by positivity) (by positivity)
          have hsq : (0 : ℚ) < p₂ ^ 2 := by
            have h2lt : p₂ < 0 := lt_of_le_of_ne h2 hz
            nlinarith
          have hpos : (0 : ℚ) < q₂ * p₂ ^ 2 := mul_pos hq₂ hsq
          have h5 : (q₂ * p₂ ^ 2) * (p₃ ^ 2 * q₁) ≤ (q₂ * p₂ ^ 2) * (p₁ ^ 2 * q₃) := by
            nlinarith [key]
          exact le_of_mul_le_mul_left h5 hpos
  · rw [if_neg h1] at hab ⊢
    simp only [Bool.and_eq_true, decide_eq_true_eq] at hab
    obtain ⟨hp2, hab2⟩ := hab
    rw [if_neg (not_le.mpr hp2)] at hbc
    simp only [Bool.and_eq_true, decide_eq_true_eq] at hbc
    obtain ⟨hp3, hbc2⟩ := hbc
    simp only [Bool.and_eq_true, decide_eq_true_eq]
    refine ⟨hp3, ?_⟩
    have key := mul_le_mul hab2 hbc2 (by positivity) (by positivity)
    have hpos : (0 : ℚ) < q₂ * p₂ ^ 2 := by positivity
    have h5 : (q₂ * p₂ ^ 2) * (p₁ ^ 2 * q₃) ≤ (q₂ * p₂ ^ 2) * (p₃ ^ 2 * q₁) := by
      nlinarith [key]
    exact le_of_mul_le_mul_left h5 hpos

/-- The cosine-distance comparison is total. -/
theorem distLE_total (a b : ℚ × ℚ) : distLE a b = true ∨ distLE b a = true := by
  unfold distLE
  by_cases ha : a.2 ≤ 0
  · by_cases hb : b.2 ≤ 0
    · left
      simp only [if_pos ha]
      exact decide_eq_true hb
    · right
      simp only [if_neg hb, if_pos ha]
  · by_cases hb : b.2 ≤ 0
    · left
      simp only [if_neg ha, if_pos hb]
    · simp only [if_neg ha, if_neg hb]
      exact simLeB_total b.1 b.2 a.1 a.2

/-- The cosine-distance comparison is transitive. -/
theorem distLE_trans (a b c : ℚ × ℚ)
    (hab : distLE a b = true) (hbc : distLE b c = true) : distLE a c = true := by
  unfold distLE at hab hbc ⊢
  by_cases ha : a.2 ≤ 0
  · rw [if_pos ha] at hab ⊢
    have hb : b.2 ≤ 0 := of_decide_eq_true hab
    rw [if_pos hb] at hbc
    exact hbc
  · rw [if_neg ha] at hab ⊢
    by_cases hc : c.2 ≤ 0
    · rw [if_pos hc]
    · rw [if_neg hc]
      by_cases hb : b.2 ≤ 0
      · rw [if_pos hb] at hbc
        exact absurd (of_decide_eq_true hbc) hc
      · rw [if_neg hb] at hab
        rw [if_neg hb, if_neg hc] at hbc
        exact simLeB_trans (not_le.mp hc) (not_le.mp hb) (not_le.mp ha) hbc hab

/-! ## C2: top-n is taken first, the seed filter is applied afterwards -/

/-- Entry `i` of the enumerated list is the list's entry `i`. -/
theorem getD_of_mem_enum {ds : List (ℚ × ℚ)} {z : Nat × (ℚ × ℚ)}
    (hz : z ∈ ds.enum) : ds.getD z.1 (0, 0) = z.2 := by
  have hz2 : (z.1, z.2) ∈ List.enum ds := by simpa using hz
  have hget : ds[z.1]? = some z.2 := List.mk_mem_enum_iff_getElem?.mp hz2
  simp [List.getD, hget]

/-- C2 as amended: whenever a taste profile exists, `recommend_songs` first
takes the `n` catalog indices of least cosine distance (the prefix of a full
distance-ascending ordering of all catalog indices) and only then removes
the rows whose title is among the seed titles; so the result can have fewer
than `n` entries even when `n` non-seed rows exist, namely when seed rows
occupy part of the top `n`. -/
theorem C2_amended_take_n_then_filter
    (sp : Spotify) (sc : Scaler) (song_list : List Seed) (data : List Song)
    (n : Nat) (c : List ℚ)
    (hmv : get_mean_vector sp song_list data = Except.ok (some c)) :
    ∃ idx : List Nat,
      idx.Perm (List.range data.length) ∧
      idx.Pairwise (fun i j => distLE ((distancesOf sc c data).getD i (0, 0))
        ((distancesOf sc c data).getD j (0, 0)) = true) ∧
      recommend_songs sp sc song_list data n =
        Except.ok (some (((idx.take n).filterMap (fun i => data.get? i)).filter
          (fun r => !(song_list.map Seed.name).contains r.name))) := by
  haveI : IsTotal (Nat × (ℚ × ℚ)) distRel := ⟨fun a b => distLE_total a.2 b.2⟩
  haveI : IsTrans (Nat × (ℚ × ℚ)) distRel := ⟨fun a b c => distLE_trans a.2 b.2 c.2⟩
  refine ⟨argsortDist (distancesOf sc c data), ?_, ?_, ?_⟩
  · have hperm :=
      (List.perm_insertionSort distRel (distancesOf sc c data).enum).map
        (fun p : Nat × (ℚ × ℚ) => p.1)
    have hfst : (distancesOf sc c data).enum.map (fun p : Nat × (ℚ × ℚ) => p.1) =
        List.range (distancesOf sc c data).length := List.enum_map_fst _
    have hlen : (distancesOf sc c data).length = data.length := by
      simp [distancesOf]
    rw [hfst, hlen] at hperm
    exact hperm
  · have hsorted : List.Pairwise distRel
        (List.insertionSort distRel (distancesOf sc c data).enum) :=
      List.sorted_insertionSort distRel _
    unfold argsortDist
    rw [List.pairwise_map]
    refine List.Pairwise.imp_of_mem ?_ hsorted
    intro x y hx hy hxy
    have hx' : x ∈ (distancesOf sc c data).enum := by
      simpa using hx
    have hy' : y ∈ (distancesOf sc c data).enum := by
      simpa using hy
    rw [getD_of_mem_enum hx', getD_of_mem_enum hy']
    exact hxy
  · simp only [recommend_songs, hmv]

/-- Counterexample for C2 as stated: seed ("A", 0) is itself a catalog row of
`data4` and has distance 0, so it occupies one of the top-2 slots; with
`n = 2` the engine returns a single row even though 3 non-seed catalog rows
exist — it does not select the first 2 from the already-filtered list. -/
theorem C2_counterexample :
    IsFitted sc4 data4 ∧
    recommend_songs spNone sc4 [⟨"A", 0⟩] data4 2 = Except.ok (some [songC]) ∧
    2 ≤ (data4.filter
      (fun r => !([(⟨"A", 0⟩ : Seed)].map Seed.name).contains r.name)).length := by
  refine ⟨?_, ?_, by decide⟩
  · constructor
    · rfl
    · intro j hj
      norm_num [sc4] at hj
      interval_cases j <;>
        norm_num [sc4, meanCol, varCol, col, data4, songA, songB, songC, songD]
  · simp [recommend_songs, get_mean_vector, collectVectors, get_song_data, seedMatches,
      Song.year, meanVec, distancesOf, Scaler.transform, transformVec, cosPair, dotL,
      argsortDist, distRel, distLE, simLeB, List.insertionSort, List.orderedInsert,
      spNone, songA, songB, songC, songD, data4, sc4, List.enum, List.enumFrom, List.find?]
    norm_num [recommend_songs, get_mean_vector, collectVectors, get_song_data, seedMatches,
      Song.year, meanVec, distancesOf, Scaler.transform, transformVec, cosPair, dotL,
      argsortDist, distRel, distLE, simLeB, List.insertionSort, List.orderedInsert,
      spNone, songA, songB, songC, songD, data4, sc4, List.enum, List.enumFrom, List.find?]
    decide

/-- Witness for the amended C2 at a concrete input. -/
theorem C2_witness :
    ∃ idx : List Nat,
      idx.Perm (List.range data4.length) ∧
      idx.Pairwise (fun i j =>
        distLE ((distancesOf sc4 (meanVec [songA.feats]) data4).getD i (0, 0))
          ((distancesOf sc4 (meanVec [songA.feats]) data4).getD j (0, 0)) = true) ∧
      recommend_songs spNone sc4 [⟨"A", 0⟩] data4 2 =
        Except.ok (some (((idx.take 2).filterMap (fun i => data4.get? i)).filter
          (fun r => !([(⟨"A", 0⟩ : Seed)].map Seed.name).contains r.name))) :=
  C2_amended_take_n_then_filter spNone sc4 [⟨"A", 0⟩] data4 2
    (meanVec [songA.feats]) rfl

/-! ## C8: column scaling before fitting -/

/-- Scaling one column preserves vector length. -/
theorem scaleVec_length : ∀ (k : Nat) (c : ℚ) (v : List ℚ),
    (scaleVec k c v).length = v.length
  | _, _, [] => by simp [scaleVec]
  | 0, _, _ :: _ => rfl
  | k + 1, c, _ :: xs => by simp [scaleVec, scaleVec_length k c xs]

/-- Entrywise description of column scaling. -/
theorem scaleVec_getD : ∀ (k : Nat) (c : ℚ) (v : List ℚ) (j : Nat),
    (scaleVec k c v).getD j 0 = if j = k then c * v.getD j 0 else v.getD j 0
  | k, c, [], j => by simp [scaleVec]
  | 0, c, x :: xs, 0 => by simp [scaleVec]
  | 0, c, x :: xs, j + 1 => by simp [scaleVec]
  | k + 1, c, x :: xs, 0 => by simp [scaleVec]
  | k + 1, c, x :: xs, j + 1 => by
    simp only [scaleVec, List.getD_cons_succ, scaleVec_getD k c xs j,
      Nat.succ_eq_add_one]
    rcases eq_or_ne j k with h | h <;> simp [h]

/-- Sum of a left-scaled list. -/
theorem sum_map_mul_left_q (c : ℚ) : ∀ (xs : List ℚ),
    (xs.map (fun x => c * x)).sum = c * xs.sum
  | [] => by simp
  | x :: xs => by simp [sum_map_mul_left_q c xs, mul_add]

/-- Mean of a left-scaled column. -/
theorem meanCol_map_mul (c : ℚ) (xs : List ℚ) :
    meanCol (xs.map (fun x => c * x)) = c * meanCol xs := by
  unfold meanCol
  rw [sum_map_mul_left_q, List.length_map, mul_div_assoc]

/-- Biased variance of a left-scaled column. -/
theorem varCol_map_mul (c : ℚ) (xs : List ℚ) :
    varCol (xs.map (fun x => c * x)) = c ^ 2 * varCol xs := by
  unfold varCol
  rw [meanCol_map_mul, List.length_map, List.map_map]
  have hfun : ∀ x ∈ xs,
      ((fun y => (y - c * meanCol xs) ^ 2) ∘ fun y => c * y) x =
        (fun y => c ^ 2 * (y - meanCol xs) ^ 2) x := by
    intro x _
    simp only [Function.comp]
    ring
  rw [List.map_congr_left hfun]
  have h2 : (xs.map (fun y => c ^ 2 * (y - meanCol xs) ^ 2)) =
      ((xs.map (fun y => (y - meanCol xs) ^ 2)).map (fun y => c ^ 2 * y)) := by
    rw [List.map_map]
    rfl
  rw [h2, sum_map_mul_left_q, mul_div_assoc]

/-- Column `j` of the column-`k`-scaled catalog. -/
theorem col_scaleColumn (k : Nat) (c : ℚ) (data : List Song) (j : Nat) :
    col (scaleColumn k c data) j =
      if j = k then (col data j).map (fun x => c * x) else col data j := by
  rcases eq_or_ne j k with h | h
  · subst h
    simp only [col, scaleColumn, List.map_map, if_pos rfl]
    refine List.map_congr_left ?_
    intro r _
    show (scaleVec j c r.feats).getD j 0 = c * r.feats.getD j 0
    rw [scaleVec_getD, if_pos rfl]
  · simp only [col, scaleColumn, List.map_map, if_neg h]
    refine List.map_congr_left ?_
    intro r _
    show (scaleVec k c r.feats).getD j 0 = r.feats.getD j 0
    rw [scaleVec_getD, if_neg h]

/-- Two positive rationals with equal squares are equal. -/
theorem eq_of_sq_eq_sq_pos {a b : ℚ} (ha : 0 < a) (hb : 0 < b)
    (h : a ^ 2 = b ^ 2) : a = b := by
  have h2 : (a - b) * (a + b) = 0 := by linear_combination h
  rcases mul_eq_zero.mp h2 with h3 | h3
  · linarith [sub_eq_zero.mp h3]
  · exfalso; nlinarith

/-- Lists of equal length with equal entries are equal. -/
theorem list_eq_of_getD {l₁ l₂ : List ℚ} (hlen : l₁.length = l₂.length)
    (h : ∀ j < l₁.length, l₁.getD j 0 = l₂.getD j 0) : l₁ = l₂ := by
  apply List.ext_getElem hlen
  intro j h₁ h₂
  have := h j h₁
  rwa [List.getD_eq_getElem?_getD, List.getD_eq_getElem?_getD,
    List.getElem?_eq_getElem h₁, List.getElem?_eq_getElem h₂] at this

/-- Means of the scaler fitted on the column-scaled catalog. -/
theorem fitted_scaled_means (sc sc' : Scaler) (data : List Song) (k : Nat) (c : ℚ)
    (hfit : IsFitted sc data) (hfit' : IsFitted sc' (scaleColumn k c data))
    (hlen : sc'.means.length = sc.means.length) :
    ∀ j < sc.means.length,
      sc'.means.getD j 0 =
        if j = k then c * sc.means.getD j 0 else sc.means.getD j 0 := by
  intro j hj
  obtain ⟨_, hall⟩ := hfit
  obtain ⟨_, hall'⟩ := hfit'
  obtain ⟨hm, _, _⟩ := hall j hj
  obtain ⟨hm', _, _⟩ := hall' j (by rw [hlen]; exact hj)
  rw [hm', hm, col_scaleColumn]
  rcases eq_or_ne j k with h | h
  · subst h
    simp [meanCol_map_mul]
  · simp [h]

/-- Scales of the scaler fitted on the column-scaled catalog, away from the
zero-variance case. -/
theorem fitted_scaled_scales (sc sc' : Scaler) (data : List Song) (k : Nat) (c : ℚ)
    (hfit : IsFitted sc data) (hfit' : IsFitted sc' (scaleColumn k c data))
    (hlen : sc'.means.length = sc.means.length)
    (hc : 0 < c) (hvar : varCol (col data k) ≠ 0) :
    ∀ j < sc.means.length,
      sc'.scales.getD j 0 =
        if j = k then c * sc.scales.getD j 0 else sc.scales.getD j 0 := by
  intro j hj
  obtain ⟨_, hall⟩ := hfit
  obtain ⟨_, hall'⟩ := hfit'
  obtain ⟨_, hpos, hsq⟩ := hall j hj
  obtain ⟨_, hpos', hsq'⟩ := hall' j (by rw [hlen]; exact hj)
  rw [col_scaleColumn] at hsq'
  rcases eq_or_ne j k with h | h
  · subst h
    rw [if_pos rfl] at hsq' ⊢
    rw [varCol_map_mul] at hsq'
    have hvar' : c ^ 2 * varCol (col data j) ≠ 0 :=
      mul_ne_zero (pow_ne_zero 2 (ne_of_gt hc)) hvar
    rw [if_neg hvar'] at hsq'
    rw [if_neg hvar] at hsq
    refine eq_of_sq_eq_sq_pos hpos' (mul_pos hc hpos) ?_
    rw [hsq', mul_pow, hsq]
  · rw [if_neg h] at hsq' ⊢
    refine eq_of_sq_eq_sq_pos hpos' hpos ?_
    rw [hsq', hsq]

/-- Standardizing a column-scaled vector with the rescaled fit equals
standardizing the original vector with the original fit. -/
theorem transform_scaleVec_eq (sc sc' : Scaler) (data : List Song) (k : Nat) (c : ℚ)
    (hfit : IsFitted sc data) (hfit' : IsFitted sc' (scaleColumn k c data))
    (hlen : sc'.means.length = sc.means.length)
    (hc : 0 < c) (hvar : varCol (col data k) ≠ 0) (v : List ℚ) :
    sc'.transform (scaleVec k c v) = sc.transform v := by
  have hm := fitted_scaled_means sc sc' data k c hfit hfit' hlen
  have hs := fitted_scaled_scales sc sc' data k c hfit hfit' hlen hc hvar
  obtain ⟨hsl, _⟩ := hfit
  obtain ⟨hsl', _⟩ := hfit'
  unfold Scaler.transform
  apply list_eq_of_getD
  · rw [transformVec_length, transformVec_length, scaleVec_length, hsl, hsl', hlen]
  · intro j hj
    rw [transformVec_length, scaleVec_length, hsl', hlen, min_self] at hj
    have hjv : j < v.length := lt_of_lt_of_le hj (min_le_left _ _)
    have hjm : j < sc.means.length := lt_of_lt_of_le hj (min_le_right _ _)
    rw [transformVec_getD _ _ _ j (by rw [scaleVec_length]; exact hjv)
        (by rw [hlen]; exact hjm) (by rw [hsl', hlen]; exact hjm),
      transformVec_getD _ _ _ j hjv hjm (by rw [hsl]; exact hjm)]
    rw [scaleVec_getD, hm j hjm, hs j hjm]
    rcases eq_or_ne j k with h | h
    · rw [if_pos h, if_pos h, if_pos h]
      rw [← mul_sub, mul_div_mul_left _ _ (ne_of_gt hc)]
    · rw [if_neg h, if_neg h, if_neg h]

/-- Scaling a non-year feature column does not change which catalog row a
seed resolves to (the lookup key (name, year) is untouched); the resolved
record is the scaled row.  The external service is fixed to report no match
for the seed, since external records are not part of the catalog scaling. -/
theorem get_song_data_scaleColumn (sp : Spotify) (s : Seed) (data : List Song)
    (k : Nat) (c : ℚ) (hk : k ≠ 1) (hsp : sp.search s = SpResult.ok none) :
    get_song_data sp s (scaleColumn k c data) =
      Except.map (Option.map (scaleSong k c)) (get_song_data sp s data) := by
  have hmatch : ∀ r : Song, seedMatches s (scaleSong k c r) = seedMatches s r := by
    intro r
    have hyear : (scaleVec k c r.feats).getD 1 0 = r.feats.getD 1 0 := by
      rw [scaleVec_getD, if_neg (fun h => hk h.symm)]
    show decide (r.name = s.name ∧ (scaleVec k c r.feats).getD 1 0 = (s.year : ℚ)) =
      decide (r.name = s.name ∧ r.feats.getD 1 0 = (s.year : ℚ))
    rw [hyear]
  have hfun : seedMatches s ∘ scaleSong k c = seedMatches s := funext hmatch
  unfold get_song_data
  rw [scaleColumn, List.find?_map, hfun]
  cases hfind : data.find? (seedMatches s) with
  | some row => simp [Except.map]
  | none => simp [hsp, Except.map]

/-- The resolution loop on the column-scaled catalog collects the scaled
feature vectors. -/
theorem collectVectors_scaleColumn (sp : Spotify) (songs : List Seed)
    (data : List Song) (k : Nat) (c : ℚ) (hk : k ≠ 1)
    (hsp : ∀ s ∈ songs, sp.search s = SpResult.ok none) :
    collectVectors sp songs (scaleColumn k c data) =
      Except.map (List.map (scaleVec k c)) (collectVectors sp songs data) := by
  induction songs with
  | nil => rfl
  | cons s rest ih =>
    have hs := get_song_data_scaleColumn sp s data k c hk
      (hsp s (List.mem_cons_self s rest))
    have ih' := ih (fun t ht => hsp t (List.mem_cons_of_mem s ht))
    unfold collectVectors
    rw [hs]
    cases hgs : get_song_data sp s data with
    | error e => simp [Except.map]
    | ok o =>
      cases o with
      | none => simpa [Except.map] using ih'
      | some row =>
        rw [ih']
        cases hrest : collectVectors sp rest data with
        | error e => simp [Except.map]
        | ok vs => simp [Except.map, scaleSong]

/-- Column scaling distributes over element-wise vector addition. -/
theorem scaleVec_zipWith_add : ∀ (k : Nat) (c : ℚ) (a b : List ℚ),
    scaleVec k c (List.zipWith (· + ·) a b) =
      List.zipWith (· + ·) (scaleVec k c a) (scaleVec k c b)
  | k, c, [], b => by simp [scaleVec]
  | k, c, a :: as, [] => by simp [scaleVec]
  | 0, c, x :: as, y :: bs => by simp [scaleVec, mul_add]
  | k + 1, c, x :: as, y :: bs => by
    simp [scaleVec, scaleVec_zipWith_add k c as bs]

/-- Column scaling distributes over the summation fold of `np.mean`. -/
theorem foldl_zipWith_scaleVec (k : Nat) (c : ℚ) : ∀ (vs : List (List ℚ)) (v : List ℚ),
    (vs.map (scaleVec k c)).foldl (fun acc w => List.zipWith (· + ·) acc w)
        (scaleVec k c v) =
      scaleVec k c (vs.foldl (fun acc w => List.zipWith (· + ·) acc w) v)
  | [], v => rfl
  | w :: ws, v => by
    simp only [List.map_cons, List.foldl_cons, ← scaleVec_zipWith_add]
    exact foldl_zipWith_scaleVec k c ws _

/-- Column scaling commutes with the per-entry division by the count. -/
theorem scaleVec_map_div (c n : ℚ) : ∀ (k : Nat) (w : List ℚ),
    scaleVec k c (w.map (fun x => x / n)) = (scaleVec k c w).map (fun x => x / n)
  | k, [] => by simp [scaleVec]
  | 0, x :: xs => by simp [scaleVec, mul_div_assoc]
  | k + 1, x :: xs => by simp [scaleVec, scaleVec_map_div c n k xs]

/-- The taste profile of scaled vectors is the scaled taste profile. -/
theorem meanVec_scaleVec (k : Nat) (c : ℚ) (vs : List (List ℚ)) :
    meanVec (vs.map (scaleVec k c)) = scaleVec k c (meanVec vs) := by
  cases vs with
  | nil => simp [meanVec, scaleVec]
  | cons v rest =>
    simp only [meanVec, List.map_cons, List.length_map, List.length_cons]
    rw [foldl_zipWith_scaleVec, scaleVec_map_div]

/-- The taste profile built on the column-scaled catalog is the column-scaled
taste profile. -/
theorem get_mean_vector_scaleColumn (sp : Spotify) (song_list : List Seed)
    (data : List Song) (k : Nat) (c : ℚ) (hk : k ≠ 1)
    (hsp : ∀ s ∈ song_list, sp.search s = SpResult.ok none) :
    get_mean_vector sp song_list (scaleColumn k c data) =
      Except.map (Option.map (scaleVec k c)) (get_mean_vector sp song_list data) := by
  have hcoll := collectVectors_scaleColumn sp song_list data k c hk hsp
  unfold get_mean_vector
  rw [hcoll]
  cases hcv : collectVectors sp song_list data with
  | error e => rfl
  | ok vs =>
    cases vs with
    | nil => rfl
    | cons v rest =>
      simp only [Except.map, List.map_cons]
      rw [show meanVec (scaleVec k c v :: rest.map (scaleVec k c)) =
          scaleVec k c (meanVec (v :: rest)) from meanVec_scaleVec k c (v :: rest)]
      rfl

/-- C8 as amended: for every feature column other than the year column
(index 1) with nonzero variance, multiplying every value of that column by a
positive constant before fitting the scaler leaves the recommendation
ranking unchanged: the engine returns the same rows, in the same order, with
only the scaled feature values rewritten.  (For the year column the claim
fails: the year is also the lookup key, so scaling it changes which seeds
resolve — see the counterexample.) -/
theorem C8_amended_scale_invariance_off_year
    (sp : Spotify) (sc sc' : Scaler) (song_list : List Seed) (data : List Song)
    (n : Nat) (k : Nat) (c : ℚ)
    (hk : k ≠ 1) (hc : 0 < c)
    (hsp : ∀ s ∈ song_list, sp.search s = SpResult.ok none)
    (hfit : IsFitted sc data) (hfit' : IsFitted sc' (scaleColumn k c data))
    (hlen : sc'.means.length = sc.means.length)
    (hvar : varCol (col data k) ≠ 0) :
    recommend_songs sp sc' song_list (scaleColumn k c data) n =
      Except.map (Option.map (List.map (scaleSong k c)))
        (recommend_songs sp sc song_list data n) := by
  have htr := transform_scaleVec_eq sc sc' data k c hfit hfit' hlen hc hvar
  have hdist : ∀ center : List ℚ,
      distancesOf sc' (scaleVec k c center) (scaleColumn k c data) =
        distancesOf sc center data := by
    intro center
    unfold distancesOf
    rw [htr]
    congr 1
    rw [scaleColumn, List.map_map]
    refine List.map_congr_left ?_
    intro r _
    exact htr r.feats
  have hcomm : ∀ idx : List Nat,
      idx.filterMap (fun i => Option.map (scaleSong k c) data[i]?) =
        (idx.filterMap (fun i => data[i]?)).map (scaleSong k c) := by
    intro idx
    induction idx with
    | nil => rfl
    | cons i is ih2 =>
      simp only [List.filterMap_cons]
      cases hgi : data[i]? with
      | none => simpa using ih2
      | some r => simp [ih2]
  have hrows : ∀ idx : List Nat,
      idx.filterMap (fun i => (scaleColumn k c data).get? i) =
        (idx.filterMap (fun i => data.get? i)).map (scaleSong k c) := by
    intro idx
    have hfun2 : (fun i => (scaleColumn k c data).get? i) =
        (fun i => Option.map (scaleSong k c) data[i]?) := by
      funext i
      rw [scaleColumn, List.get?_eq_getElem?, List.getElem?_map]
    have hfun3 : (fun i : Nat => data.get? i) = (fun i : Nat => data[i]?) := by
      funext i
      rw [List.get?_eq_getElem?]
    rw [hfun2, hfun3]
    exact hcomm idx
  have hfilter : ∀ l : List Song,
      (l.map (scaleSong k c)).filter
          (fun r => !(song_list.map Seed.name).contains r.name) =
        (l.filter (fun r => !(song_list.map Seed.name).contains r.name)).map
          (scaleSong k c) := by
    intro l
    rw [List.filter_map]
    congr 1
  rw [recommend_songs, recommend_songs,
    get_mean_vector_scaleColumn sp song_list data k c hk hsp]
  cases hmv : get_mean_vector sp song_list data with
  | error e => rfl
  | ok o =>
    cases o with
    | none => rfl
    | some center =>
      simp only [Except.map, Option.map]
      rw [hdist center, hrows, hfilter]

/-- The fixture scaler `sc4` is the fit of `data4`. -/
theorem sc4_fitted : IsFitted sc4 data4 := by
  constructor
  · rfl
  · intro j hj
    norm_num [sc4] at hj
    interval_cases j <;>
      norm_num [sc4, meanCol, varCol, col, data4, songA, songB, songC, songD]

/-- The fixture scaler `sc4b` is the fit of `data4` with the year column
doubled. -/
theorem sc4b_fitted : IsFitted sc4b (scaleColumn 1 2 data4) := by
  constructor
  · rfl
  · intro j hj
    norm_num [sc4b] at hj
    interval_cases j <;>
      norm_num [sc4b, meanCol, varCol, col, data4, songA, songB, songC, songD,
        scaleColumn, scaleSong, scaleVec]

/-- The fixture scaler `sc4k0` is the fit of `data4` with column 0 doubled. -/
theorem sc4k0_fitted : IsFitted sc4k0 (scaleColumn 0 2 data4) := by
  constructor
  · rfl
  · intro j hj
    norm_num [sc4k0] at hj
    interval_cases j <;>
      norm_num [sc4k0, meanCol, varCol, col, data4, songA, songB, songC, songD,
        scaleColumn, scaleSong, scaleVec]

/-- Counterexample for C8 as stated: scaling the year feature column (a
feature column like any other in `number_cols`, but doubling as the lookup
key) by the positive constant 2 changes the outcome: with the original
catalog, seed ("C", 2) resolves and the engine recommends a row; with the
column scaled before fitting, the same seed no longer matches any
(name, year) pair, no profile can be built, and the engine returns None —
the ranking is not unchanged, although the scaled column has nonzero
variance. -/
theorem C8_counterexample :
    IsFitted sc4 data4 ∧
    IsFitted sc4b (scaleColumn 1 2 data4) ∧
    varCol (col data4 1) ≠ 0 ∧
    recommend_songs spNone sc4 [⟨"C", 2⟩] data4 2 = Except.ok (some [songA]) ∧
    recommend_songs spNone sc4b [⟨"C", 2⟩] (scaleColumn 1 2 data4) 2 =
      Except.ok none := by
  refine ⟨sc4_fitted, sc4b_fitted, ?_, ?_, ?_⟩
  · norm_num [varCol, meanCol, col, data4, songA, songB, songC, songD]
  · simp [recommend_songs, get_mean_vector, collectVectors, get_song_data, seedMatches,
      Song.year, meanVec, distancesOf, Scaler.transform, transformVec, cosPair, dotL,
      argsortDist, distRel, distLE, simLeB, List.insertionSort, List.orderedInsert,
      spNone, songA, songB, songC, songD, data4, sc4, List.enum, List.enumFrom, List.find?]
    norm_num [recommend_songs, get_mean_vector, collectVectors, get_song_data, seedMatches,
      Song.year, meanVec, distancesOf, Scaler.transform, transformVec, cosPair, dotL,
      argsortDist, distRel, distLE, simLeB, List.insertionSort, List.orderedInsert,
      spNone, songA, songB, songC, songD, data4, sc4, List.enum, List.enumFrom, List.find?]
    decide
  · norm_num [recommend_songs, get_mean_vector, collectVectors, get_song_data, seedMatches,
      Song.year, meanVec, scaleColumn, scaleSong, scaleVec,
      spNone, songA, songB, songC, songD, data4, sc4b]

/-- Witness for the amended C8 at a concrete input: column 0 scaled by 2. -/
theorem C8_witness :
    recommend_songs spNone sc4k0 [⟨"C", 2⟩] (scaleColumn 0 2 data4) 2 =
      Except.map (Option.map (List.map (scaleSong 0 2)))
        (recommend_songs spNone sc4 [⟨"C", 2⟩] data4 2) :=
  C8_amended_scale_invariance_off_year spNone sc4 sc4k0 [⟨"C", 2⟩] data4 2 0 2
    (by decide) (by norm_num) (by decide) sc4_fitted sc4k0_fitted rfl
    (by norm_num [varCol, meanCol, col, data4, songA, songB, songC, songD])
